import Mathlib

/-!
Shallow embedding of the DigitalOcean facts modules
(`digital_ocean_image_facts.py`, `digital_ocean_region_facts.py`,
`digital_ocean_size_facts.py`, `digital_ocean_snapshot_facts.py`).
-/

/-- Decoded JSON values, as produced by the HTTP capability's `response.json`. -/
inductive Json where
  | null
  | bool (b : Bool)
  | num (n : Int)
  | str (s : String)
  | arr (items : List Json)
  | obj (fields : List (String × Json))

/-- A single-quote character, used inside Python message strings. -/
def pyq : String := String.singleton (Char.ofNat 39)

/-- Association-list lookup over the fields of a JSON object (Python dict subscript). -/
def jsonLookup : List (String × Json) → String → Option Json
  | [], _ => none
  | (k, v) :: rest, key => if k = key then some v else jsonLookup rest key

/-- Python subscript `j[key]`: returns the value, or raises `KeyError` for a missing
key on a dict and `TypeError` on a non-dict. -/
def pyIndex : Json → String → Except String Json
  | .obj fields, key =>
    match jsonLookup fields key with
    | some v => .ok v
    | none => .error ("KeyError: " ++ key)
  | _, key => .error ("TypeError: not subscriptable: " ++ key)

/-- Python membership test `key in j`: key containment on a dict, element equality on a
list (a string compares equal only to strings), substring test on a string, `TypeError`
otherwise. -/
def pyIn (key : String) : Json → Except String Bool
  | .obj fields => .ok (jsonLookup fields key).isSome
  | .arr items => .ok (items.any fun j => match j with | .str s => s = key | _ => false)
  | .str s => .ok (decide (List.IsInfix key.toList s.toList))
  | _ => .error "TypeError: argument of type is not iterable"

/-- Python iteration protocol, as used by `list.extend`: a list yields its elements,
a dict yields its keys, a string yields its characters, anything else raises
`TypeError`. -/
def pyIterate : Json → Except String (List Json)
  | .arr items => .ok items
  | .obj fields => .ok (fields.map fun kv => .str kv.1)
  | .str s => .ok (s.toList.map fun c => .str (String.singleton c))
  | _ => .error "TypeError: object is not iterable"

mutual
/-- Python `repr` of a JSON value (used by `str` on containers). -/
def pyRepr : Json → String
  | .null => "None"
  | .bool b => if b then "True" else "False"
  | .num n => toString n
  | .str s => pyq ++ s ++ pyq
  | .arr items => "[" ++ pyReprList items ++ "]"
  | .obj fields => "\x7b" ++ pyReprFields fields ++ "\x7d"

/-- Comma-separated `repr`s of a list of JSON values. -/
def pyReprList : List Json → String
  | [] => ""
  | [x] => pyRepr x
  | x :: xs => pyRepr x ++ ", " ++ pyReprList xs

/-- Comma-separated `repr`s of the fields of a JSON object. -/
def pyReprFields : List (String × Json) → String
  | [] => ""
  | [(k, v)] => pyq ++ k ++ pyq ++ ": " ++ pyRepr v
  | (k, v) :: xs => pyq ++ k ++ pyq ++ ": " ++ pyRepr v ++ ", " ++ pyReprFields xs
end

/-- Python `str()` of a JSON value, as applied by the `%s` format directive in the
modules' failure messages. -/
def pyStr : Json → String
  | .str s => s
  | j => pyRepr j

/-- Modelled from the spec: the HTTP capability's response shape,
`GET(path) -> \x7bstatus_code: int, json: object\x7d` (spec section 6); the helper class
providing it (`DigitalOceanHelper`) is not part of the four source files. -/
structure Response where
  status_code : Nat
  json : Json

/-- The page URL built by the loop body,
`"\x7b0\x7dpage=\x7b1\x7d&per_page=20".format(base_url, page)`. -/
def pageUrl (baseUrl : String) (page : Nat) : String :=
  baseUrl ++ "page=" ++ toString page ++ "&per_page=20"

/-- How the pagination loop ended: the `while` condition became false or `break` ran
(`normal`), a Python exception propagated (`raised`), or the supplied fuel ran out,
which models a non-terminating loop (`fuelOut`). -/
inductive LoopExit where
  | normal
  | raised (msg : String)
  | fuelOut
deriving DecidableEq

/-- State left behind by the pagination loop: the page URLs requested in order, the
accumulated item list, the last `status_code`, the last response, and how the loop
ended. -/
structure PageLoopResult where
  log : List String
  items : List Json
  status : Nat
  resp : Response
  exit : LoopExit

/-- One `list.extend(response.json[collKey])` step: index the body at the collection
key, then run Python's iteration protocol on the value. -/
def extendItems (resp : Response) (collKey : String) : Except String (List Json) :=
  match pyIndex resp.json collKey with
  | .error e => .error e
  | .ok v => pyIterate v

/-- The loop's
`"pages" in response.json["links"] and "next" in response.json["links"]["pages"]`,
with Python's short-circuiting `and`. -/
def computeHasNext (resp : Response) : Except String Bool :=
  match pyIndex resp.json "links" with
  | .error e => .error e
  | .ok links =>
    match pyIn "pages" links with
    | .error e => .error e
    | .ok false => .ok false
    | .ok true =>
      match pyIndex resp.json "links" with
      | .error e => .error e
      | .ok links2 =>
        match pyIndex links2 "pages" with
        | .error e => .error e
        | .ok pgs => pyIn "next" pgs

/-- The pagination loop shared verbatim (up to base URL, collection key and message
text) by `digital_ocean_image_facts.py` lines 130-143,
`digital_ocean_region_facts.py` lines 103-115 and
`digital_ocean_snapshot_facts.py` lines 134-145:
`while has_next or status_code != 200:` fetch the page, break on a non-200 status,
otherwise extend the accumulator and recompute `has_next` from the `links` object.
`fuel` bounds the number of iterations; the source loop is unbounded. -/
def pageLoop (get : String → Response) (baseUrl collKey : String) :
    Nat → Nat → Bool → List Json → Nat → Response → PageLoopResult
  | 0, _, hasNext, items, status, lastResp =>
    if hasNext ∨ status ≠ 200 then ⟨[], items, status, lastResp, .fuelOut⟩
    else ⟨[], items, status, lastResp, .normal⟩
  | fuel + 1, page, hasNext, items, status, lastResp =>
    if hasNext ∨ status ≠ 200 then
      let url := pageUrl baseUrl page
      let resp := get url
      if resp.status_code ≠ 200 then
        ⟨[url], items, resp.status_code, resp, .normal⟩
      else
        match extendItems resp collKey with
        | .error e => ⟨[url], items, resp.status_code, resp, .raised e⟩
        | .ok newItems =>
          match computeHasNext resp with
          | .error e => ⟨[url], items ++ newItems, resp.status_code, resp, .raised e⟩
          | .ok hn =>
            let r := pageLoop get baseUrl collKey fuel (page + 1) hn
              (items ++ newItems) resp.status_code resp
            ⟨url :: r.log, r.items, r.status, r.resp, r.exit⟩
    else ⟨[], items, status, lastResp, .normal⟩

/-- Outcome of a module's `core` function: `module.exit_json(changed=False, data=...)`,
`module.fail_json(msg=...)`, an uncaught Python exception, or non-termination of the
pagination loop (fuel exhausted). -/
inductive CoreOut where
  | exitJson (data : Json)
  | failJson (msg : String)
  | raised (msg : String)
  | diverge

/-- Login-failure message of the image and snapshot modules. -/
def tokenAuthMsg : String :=
  "Failed to login using api_token, please verify validity of api_token"

/-- Login-failure message of the region and size modules. -/
def apiTokenAuthMsg : String :=
  "Failed to login using API token, please verify validity of API token."

/-- Head of the image module's fetch-failure message. -/
def imagesFetchMsg : String := "Failed to fetch images facts due to error : "

/-- Head of the region module's fetch-failure message. -/
def regionsFetchMsg : String :=
  "Failed to fetch " ++ pyq ++ "regions" ++ pyq ++ " facts due to error : "

/-- Head of the size module's fetch-failure message. -/
def sizesFetchMsg : String :=
  "Failed to fetch " ++ pyq ++ "sizes" ++ pyq ++ " facts due to error : "

/-- Head of the snapshot module's fetch-failure message. -/
def snapshotFetchMsg : String := "Failed to fetch snapshot facts due to error : "

/-- The trailing status check shared by the image, region and snapshot modules:
on a `raised` exit the exception propagates; on a normal exit,
`if status_code != 200: module.fail_json(msg=<fetchMsg> % response.json['message'])`
else `module.exit_json(changed=False, data=<items>)`. -/
def reportLoop (fetchMsg : String) (log : List String) (r : PageLoopResult) :
    List String × CoreOut :=
  match r.exit with
  | .raised e => (log, .raised e)
  | .fuelOut => (log, .diverge)
  | .normal =>
    if r.status ≠ 200 then
      match pyIndex r.resp.json "message" with
      | .ok m => (log, .failJson (fetchMsg ++ pyStr m))
      | .error e => (log, .raised e)
    else (log, .exitJson (.arr r.items))

namespace DigitalOceanImageFacts

/-- The image module's base URL construction (`digital_ocean_image_facts.py`
lines 122-128): start from `"images?"` and append the subtype filter. -/
def baseUrlOf (image_type : String) : String :=
  let base_url := "images?"
  if image_type = "distribution" then base_url ++ "type=distribution&"
  else if image_type = "application" then base_url ++ "type=application&"
  else if image_type = "private" then base_url ++ "private=true&"
  else base_url

/-- `core(module)` of `digital_ocean_image_facts.py` (lines 112-148): pre-flight
`GET account` with a 401 check, then the pagination loop over `"images"`, then either
the fetch-failure report or `exit_json` with the accumulated list. Returns the ordered
request log paired with the outcome. -/
def core (image_type : String) (get : String → Response) (fuel : Nat) :
    List String × CoreOut :=
  let response := get "account"
  if response.status_code = 401 then (["account"], .failJson tokenAuthMsg)
  else
    let r := pageLoop get (baseUrlOf image_type) "images" fuel 1 true [] 400 response
    reportLoop imagesFetchMsg ("account" :: r.log) r

end DigitalOceanImageFacts

namespace DigitalOceanRegionFacts

/-- `core(module)` of `digital_ocean_region_facts.py` (lines 95-120): pre-flight
`GET account` with a 401 check, the pagination loop over `"regions"` (the source
builds `"regions?page=\x7b0\x7d&per_page=20"` in one format call, equal to
`pageUrl "regions?" page`), then failure report or `exit_json`. -/
def core (get : String → Response) (fuel : Nat) : List String × CoreOut :=
  let response := get "account"
  if response.status_code = 401 then (["account"], .failJson apiTokenAuthMsg)
  else
    let r := pageLoop get "regions?" "regions" fuel 1 true [] 400 response
    reportLoop regionsFetchMsg ("account" :: r.log) r

end DigitalOceanRegionFacts

namespace DigitalOceanSizeFacts

/-- `core(module)` of `digital_ocean_size_facts.py` (lines 88-100): pre-flight
`GET account` with a 401 check, then a single `GET sizes` — no page parameters, no
loop — then failure report or `exit_json(data=response.json['sizes'])`. -/
def core (get : String → Response) : List String × CoreOut :=
  let account := get "account"
  if account.status_code = 401 then (["account"], .failJson apiTokenAuthMsg)
  else
    let response := get "sizes"
    if response.status_code ≠ 200 then
      match pyIndex response.json "message" with
      | .ok m => (["account", "sizes"], .failJson (sizesFetchMsg ++ pyStr m))
      | .error e => (["account", "sizes"], .raised e)
    else
      match pyIndex response.json "sizes" with
      | .ok d => (["account", "sizes"], .exitJson d)
      | .error e => (["account", "sizes"], .raised e)

end DigitalOceanSizeFacts

namespace DigitalOceanSnapshotFacts

/-- The snapshot module's collection base URL (`digital_ocean_snapshot_facts.py`
lines 119, 129-132): start from `"snapshots"` — with no `?` — and append the
subtype filter for `droplet`/`volume` only. -/
def baseUrlOf (snapshot_type : String) : String :=
  let base_url := "snapshots"
  if snapshot_type = "droplet" then base_url ++ "?resource_type=droplet&"
  else if snapshot_type = "volume" then base_url ++ "?resource_type=volume&"
  else base_url

/-- `str(module.params.get('snapshot_id'))` as interpolated by
`"/\x7b0\x7d".format(...)`: a missing parameter renders as `"None"`. -/
def snapshotIdText : Option String → String
  | some s => s
  | none => "None"

/-- `core(module)` of `digital_ocean_snapshot_facts.py` (lines 109-150): pre-flight
`GET account` with a 401 check; for `snapshot_type == 'by_id'` a single
`GET snapshots/<id>` whose body is indexed at `"snapshot"` and pushed through
`list.extend`; otherwise the pagination loop over `"snapshots"`; then the shared
status check reporting either the fetch failure or `exit_json`. -/
def core (snapshot_type : String) (snapshot_id : Option String)
    (get : String → Response) (fuel : Nat) : List String × CoreOut :=
  let account := get "account"
  if account.status_code = 401 then (["account"], .failJson tokenAuthMsg)
  else if snapshot_type = "by_id" then
    let url := "snapshots" ++ "/" ++ snapshotIdText snapshot_id
    let response := get url
    let log := ["account", url]
    match extendItems response "snapshot" with
    | .error e => (log, .raised e)
    | .ok items =>
      reportLoop snapshotFetchMsg log ⟨[], items, response.status_code, response, .normal⟩
  else
    let r := pageLoop get (baseUrlOf snapshot_type) "snapshots" fuel 1 true [] 400 account
    reportLoop snapshotFetchMsg ("account" :: r.log) r

end DigitalOceanSnapshotFacts

/-- Outcome of a module's `main` function: `core`'s `exit_json`/`fail_json` outcomes
pass through; an exception is caught by the `try/except` and reported via
`fail_json(msg=to_native(e), exception=format_exc())` (`failJsonExn`); an
argument-spec violation is rejected by `AnsibleModule` before `core` runs
(`paramFail`). -/
inductive Outcome where
  | exitJson (data : Json)
  | failJson (msg : String)
  | failJsonExn (msg : String)
  | paramFail (msg : String)
  | diverge

/-- Modelled from the spec: the message used by the framework's `required_if`
rejection; `AnsibleModule` itself is not among the four source files, and the spec
(sections 7 and 8) only requires that selecting `by_id` without an identifier is
rejected before any network call with a Required-Parameter Failure. -/
def requiredParamMsg : String :=
  "snapshot_type is by_id but all of the following are missing: snapshot_id"

namespace DigitalOceanSnapshotFacts

/-- `main()` of `digital_ocean_snapshot_facts.py` (lines 153-172): `AnsibleModule`
argument validation with `required_if=[['snapshot_type', 'by_id', ['snapshot_id']]]`
(modelled from the spec, see `requiredParamMsg`), then `core` inside `try/except`
where any exception is converted to `fail_json` with the exception text. -/
def main (snapshot_type : String) (snapshot_id : Option String)
    (get : String → Response) (fuel : Nat) : List String × Outcome :=
  if snapshot_type = "by_id" ∧ snapshot_id = none then ([], .paramFail requiredParamMsg)
  else
    match core snapshot_type snapshot_id get fuel with
    | (log, .exitJson d) => (log, .exitJson d)
    | (log, .failJson m) => (log, .failJson m)
    | (log, .raised m) => (log, .failJsonExn m)
    | (log, .diverge) => (log, .diverge)

end DigitalOceanSnapshotFacts

/-- Modelled from the spec: the one generic paginated fetch of spec sections 4.1
and 9, parameterized by the composed base URL (base path plus filter parameters) and
the collection key: `page = 1`, `has_next = true`, empty accumulator, sentinel
status 400, then the page loop. -/
def genericFetch (baseUrl collKey : String) (get : String → Response) (fuel : Nat) :
    PageLoopResult :=
  pageLoop get baseUrl collKey fuel 1 true [] 400 ⟨400, .obj []⟩

/-- Modelled from the spec: the whole-module pipeline of spec section 4.1 — pre-flight
`GET account` aborting on 401 with `authMsg`, then `genericFetch`, then report a fetch
failure built from `fetchMsg` and the provider's message, or the accumulated list. -/
def moduleRun (baseUrl collKey authMsg fetchMsg : String) (get : String → Response)
    (fuel : Nat) : List String × CoreOut :=
  let account := get "account"
  if account.status_code = 401 then (["account"], .failJson authMsg)
  else
    let g := genericFetch baseUrl collKey get fuel
    reportLoop fetchMsg ("account" :: g.log) g

/-- A success page response: the collection key maps to the given items, and
`links.pages` carries a `next` entry exactly when `hasNext` is true. -/
def pageResponse (collKey : String) (items : List Json) (hasNext : Bool) : Response :=
  ⟨200, .obj [(collKey, .arr items),
    ("links", .obj [("pages",
      .obj (if hasNext then [("next", .str "https://api.example/next")] else []))])]⟩

/-- Fixture provider: every path answers 200 with an empty JSON object. -/
def probeGet : String → Response := fun _ => ⟨200, .obj []⟩

/-- Fixture provider: every path answers 401. -/
def unauthorizedGet : String → Response := fun _ => ⟨401, .obj []⟩

/-- Fixture provider: the account probe answers 403, everything else 200. -/
def forbiddenGet : String → Response := fun path =>
  if path = "account" then ⟨403, .obj []⟩ else ⟨200, .obj []⟩

/-- Fixture provider: one three-item page for the image collection and one three-item
page for the region collection, no `next` links. -/
def demoGet : String → Response := fun path =>
  if path = "images?page=1&per_page=20" then
    pageResponse "images" [.num 1, .num 2, .num 3] false
  else if path = "regions?page=1&per_page=20" then
    pageResponse "regions" [.num 1, .num 2, .num 3] false
  else ⟨200, .obj []⟩

/-- Fixture provider: one empty region page with no `next` link. -/
def emptyRegionsGet : String → Response := fun path =>
  if path = "regions?page=1&per_page=20" then pageResponse "regions" [] false
  else ⟨200, .obj []⟩

/-- Fixture provider: the first image page answers 500 with a provider message. -/
def failPageGet : String → Response := fun path =>
  if path = "images?page=1&per_page=20" then ⟨500, .obj [("message", .str "boom")]⟩
  else ⟨200, .obj []⟩

/-- Fixture provider for the snapshot by-identifier lookup: identifier `123` exists
(the body wraps a two-field snapshot object), identifier `404` does not (the body is
the provider's error object, with no `snapshot` key). -/
def snapshotByIdGet : String → Response := fun path =>
  if path = "snapshots/123" then
    ⟨200, .obj [("snapshot", .obj [("id", .num 1), ("name", .str "x")])]⟩
  else if path = "snapshots/404" then
    ⟨404, .obj [("id", .str "not_found"), ("message", .str "missing snapshot")]⟩
  else ⟨200, .obj []⟩

/-- Fixture provider: a two-page size collection, served both in paginated form (pages
1 and 2, with a `next` link on page 1) and at the bare `sizes` path (first page only,
but still advertising a `next` link). -/
def twoPageSizesGet : String → Response := fun path =>
  if path = "sizes" then
    ⟨200, .obj [("sizes", .arr [.num 1]),
      ("links", .obj [("pages", .obj [("next", .str "https://api.example/next")])])]⟩
  else if path = "sizes?page=1&per_page=20" then pageResponse "sizes" [.num 1] true
  else if path = "sizes?page=2&per_page=20" then pageResponse "sizes" [.num 2] false
  else ⟨200, .obj []⟩

/-- Once `has_next` is false and the status is 200, the loop exits immediately at any
fuel level. -/
theorem pageLoop_stop (get : String → Response) (baseUrl collKey : String)
    (fuel page : Nat) (acc : List Json) (r : Response) :
    pageLoop get baseUrl collKey fuel page false acc 200 r = ⟨[], acc, 200, r, .normal⟩ := by
  cases fuel <;> simp [pageLoop]

/-- Indexing a `pageResponse` at its collection key yields exactly its items. -/
theorem extendItems_pageResponse (collKey : String) (items : List Json) (hn : Bool) :
    extendItems (pageResponse collKey items hn) collKey = .ok items := by
  simp [extendItems, pageResponse, pyIndex, jsonLookup, pyIterate]

/-- The `has_next` computation on a `pageResponse` recovers its `hasNext` flag,
provided the collection key does not shadow `"links"`. -/
theorem computeHasNext_pageResponse (collKey : String) (items : List Json) (hn : Bool)
    (hc : collKey ≠ "links") :
    computeHasNext (pageResponse collKey items hn) = .ok hn := by
  cases hn <;> simp [computeHasNext, pageResponse, pyIndex, jsonLookup, pyIn, hc]
/-- Running the loop from page `k` with `has_next` true, over a provider that serves
the pages of `ps` at their page URLs (with a next link on every page but the last),
walks pages `k` through `ps.length` in order, accumulates their items by
concatenation, and exits normally with status 200. -/
theorem pageLoop_run (get : String → Response) (baseUrl collKey : String)
    (ps : List (List Json)) (hc : collKey ≠ "links") :
    ∀ fuel k acc status lastResp, 1 ≤ k → k ≤ ps.length → ps.length + 1 ≤ fuel + k →
    (∀ j, k ≤ j → j ≤ ps.length →
      get (pageUrl baseUrl j) =
        pageResponse collKey (ps.getD (j - 1) []) (decide (j < ps.length))) →
    pageLoop get baseUrl collKey fuel k true acc status lastResp =
      ⟨(List.range' k (ps.length - k + 1)).map (pageUrl baseUrl),
       acc ++ (ps.drop (k - 1)).flatten, 200,
       pageResponse collKey (ps.getD (ps.length - 1) []) false, .normal⟩ := by
  intro fuel
  induction fuel with
  | zero => intro k acc status lastResp hk1 hk2 hfuel hp; omega
  | succ fuel ih =>
    intro k acc status lastResp hk1 hk2 hfuel hp
    have hget := hp k le_rfl hk2
    have hk1' : k - 1 < ps.length := by omega
    have hdrop : ps.drop (k - 1) = ps.getD (k - 1) [] :: ps.drop k := by
      have hsucc : k - 1 + 1 = k := by omega
      rw [List.getD_eq_getElem ps [] hk1', List.drop_eq_getElem_cons hk1', hsucc]
    have hstep : pageLoop get baseUrl collKey (fuel + 1) k true acc status lastResp =
        let r := pageLoop get baseUrl collKey fuel (k + 1) (decide (k < ps.length))
          (acc ++ ps.getD (k - 1) []) 200 (pageResponse collKey (ps.getD (k - 1) [])
            (decide (k < ps.length)))
        ⟨pageUrl baseUrl k :: r.log, r.items, r.status, r.resp, r.exit⟩ := by
      simp only [pageLoop, if_pos (Or.inl rfl), hget,
        extendItems_pageResponse, computeHasNext_pageResponse _ _ _ hc]
      simp [pageResponse]
    rw [hstep]
    by_cases hlt : k < ps.length
    · have hd : decide (k < ps.length) = true := by simp [hlt]
      rw [hd]
      have ha : 1 ≤ k + 1 := by omega
      have hb : k + 1 ≤ ps.length := by omega
      have hf : ps.length + 1 ≤ fuel + (k + 1) := by omega
      have hrec := ih (k + 1) (acc ++ ps.getD (k - 1) []) 200
        (pageResponse collKey (ps.getD (k - 1) []) true) ha hb hf
        (fun j hj1 hj2 => hp j (by omega) hj2)
      rw [hrec]
      have hrange : ps.length - k + 1 = (ps.length - (k + 1) + 1) + 1 := by omega
      have hlog : pageUrl baseUrl k ::
          List.map (pageUrl baseUrl) (List.range' (k + 1) (ps.length - (k + 1) + 1)) =
          List.map (pageUrl baseUrl) (List.range' k (ps.length - k + 1)) := by
        conv_rhs => rw [hrange, List.range'_succ, List.map_cons]
      have hitems : acc ++ ps.getD (k - 1) [] ++ (List.drop (k + 1 - 1) ps).flatten =
          acc ++ (List.drop (k - 1) ps).flatten := by
        show acc ++ ps.getD (k - 1) [] ++ (List.drop k ps).flatten = _
        rw [hdrop, List.flatten_cons, List.append_assoc]
      rw [← hlog, ← hitems]
    · have hk : k = ps.length := by omega
      have hd : decide (k < ps.length) = false := by simp [hlt]
      rw [hd, pageLoop_stop]
      have hrange : ps.length - k + 1 = 1 := by omega
      have hnil : List.drop k ps = [] := List.drop_eq_nil_of_le (by omega)
      have hlog : [pageUrl baseUrl k] =
          List.map (pageUrl baseUrl) (List.range' k (ps.length - k + 1)) := by
        rw [hrange]
        rfl
      have hitems : acc ++ ps.getD (k - 1) [] =
          acc ++ (List.drop (k - 1) ps).flatten := by
        rw [hdrop, hnil, List.flatten_cons, List.flatten_nil, List.append_nil]
      have hresp : pageResponse collKey (ps.getD (k - 1) []) false =
          pageResponse collKey (ps.getD (ps.length - 1) []) false := by
        rw [hk]
      rw [← hlog, ← hitems, ← hresp]

/-- Running the loop from page `j` with `has_next` true, over a provider that serves
success pages with next links at pages `j..k-1` (drawn from `ps`) and a non-200
response at page `k`, requests exactly pages `j..k`, breaks at page `k`, and leaves
the error response and its status behind; the items of the successful pages stay in
the accumulator. -/
theorem pageLoop_fail (get : String → Response) (baseUrl collKey : String)
    (ps : List (List Json)) (k : Nat) (errResp : Response) (hc : collKey ≠ "links")
    (herr : errResp.status_code ≠ 200) (hkresp : get (pageUrl baseUrl k) = errResp)
    (hps : k ≤ ps.length + 1) :
    ∀ fuel j acc status lastResp, 1 ≤ j → j ≤ k → k + 1 ≤ fuel + j →
    (∀ i, j ≤ i → i < k →
      get (pageUrl baseUrl i) = pageResponse collKey (ps.getD (i - 1) []) true) →
    pageLoop get baseUrl collKey fuel j true acc status lastResp =
      ⟨(List.range' j (k - j + 1)).map (pageUrl baseUrl),
       acc ++ ((ps.drop (j - 1)).take (k - j)).flatten,
       errResp.status_code, errResp, .normal⟩ := by
  intro fuel
  induction fuel with
  | zero => intro j acc status lastResp h1 h2 hf hp; omega
  | succ fuel ih =>
    intro j acc status lastResp h1 h2 hf hp
    by_cases hjk : j = k
    · subst hjk
      have hstep : pageLoop get baseUrl collKey (fuel + 1) j true acc status lastResp =
          ⟨[pageUrl baseUrl j], acc, errResp.status_code, errResp, .normal⟩ := by
        simp only [pageLoop, if_pos (Or.inl rfl), hkresp]
        simp [herr]
      rw [hstep, Nat.sub_self]
      simp
    · have hjk' : j < k := by omega
      have hget := hp j le_rfl hjk'
      have hj1' : j - 1 < ps.length := by omega
      have hsucc : j - 1 + 1 = j := by omega
      have hdrop : ps.drop (j - 1) = ps.getD (j - 1) [] :: ps.drop j := by
        rw [List.getD_eq_getElem ps [] hj1', List.drop_eq_getElem_cons hj1', hsucc]
      have hstep : pageLoop get baseUrl collKey (fuel + 1) j true acc status lastResp =
          let r := pageLoop get baseUrl collKey fuel (j + 1) true
            (acc ++ ps.getD (j - 1) []) 200 (pageResponse collKey (ps.getD (j - 1) []) true)
          ⟨pageUrl baseUrl j :: r.log, r.items, r.status, r.resp, r.exit⟩ := by
        simp only [pageLoop, if_pos (Or.inl rfl), hget, extendItems_pageResponse,
          computeHasNext_pageResponse _ _ _ hc]
        simp [pageResponse]
      rw [hstep]
      have hrec := ih (j + 1) (acc ++ ps.getD (j - 1) []) 200
        (pageResponse collKey (ps.getD (j - 1) []) true) (by omega) (by omega) (by omega)
        (fun i hi1 hi2 => hp i (by omega) hi2)
      rw [hrec]
      have hrange : k - j + 1 = (k - (j + 1) + 1) + 1 := by omega
      have hlog : pageUrl baseUrl j ::
          List.map (pageUrl baseUrl) (List.range' (j + 1) (k - (j + 1) + 1)) =
          List.map (pageUrl baseUrl) (List.range' j (k - j + 1)) := by
        conv_rhs => rw [hrange, List.range'_succ, List.map_cons]
      have hrange2 : k - j = (k - (j + 1)) + 1 := by omega
      have hitems : acc ++ ps.getD (j - 1) [] ++
          ((ps.drop (j + 1 - 1)).take (k - (j + 1))).flatten =
          acc ++ ((ps.drop (j - 1)).take (k - j)).flatten := by
        show acc ++ ps.getD (j - 1) [] ++ ((ps.drop j).take (k - (j + 1))).flatten = _
        rw [hdrop, hrange2, List.take_succ_cons, List.flatten_cons, List.append_assoc]
      rw [← hlog, ← hitems]

/-- The image module's `core` is the generic fetch pipeline instantiated with the
image base URL, the `"images"` collection key and the image module's messages. -/
theorem imageFacts_core_eq_run (image_type : String) (get : String → Response)
    (fuel : Nat) :
    DigitalOceanImageFacts.core image_type get fuel =
      moduleRun (DigitalOceanImageFacts.baseUrlOf image_type) "images"
        tokenAuthMsg imagesFetchMsg get fuel := by
  cases fuel <;> rfl

/-- The region module's `core` is the generic fetch pipeline instantiated with base
URL `"regions?"`, the `"regions"` collection key and the region module's messages. -/
theorem regionFacts_core_eq_run (get : String → Response) (fuel : Nat) :
    DigitalOceanRegionFacts.core get fuel =
      moduleRun "regions?" "regions" apiTokenAuthMsg regionsFetchMsg get fuel := by
  cases fuel <;> rfl

/-- Outside the by-identifier special case, the snapshot module's `core` is the
generic fetch pipeline instantiated with the snapshot base URL, the `"snapshots"`
collection key and the snapshot module's messages. -/
theorem snapshotFacts_core_eq_run (snapshot_type : String) (snapshot_id : Option String)
    (get : String → Response) (fuel : Nat) (h : snapshot_type ≠ "by_id") :
    DigitalOceanSnapshotFacts.core snapshot_type snapshot_id get fuel =
      moduleRun (DigitalOceanSnapshotFacts.baseUrlOf snapshot_type) "snapshots"
        tokenAuthMsg snapshotFetchMsg get fuel := by
  cases fuel <;>
    simp [DigitalOceanSnapshotFacts.core, moduleRun, genericFetch, h, pageLoop, reportLoop]

/-- A page list whose first `P - 1` pages have 20 items and whose last page has `r`
items flattens to exactly `20 * (P - 1) + r` items. -/
theorem sum_page_sizes (ps : List (List Json)) (r : Nat) (hlen : 1 ≤ ps.length)
    (hfull : ∀ i, i + 1 < ps.length → (ps.getD i []).length = 20)
    (hlast : (ps.getD (ps.length - 1) []).length = r) :
    ps.flatten.length = 20 * (ps.length - 1) + r := by
  induction ps generalizing r with
  | nil => simp at hlen
  | cons a t ih =>
    cases t with
    | nil =>
      simp only [List.flatten_cons, List.flatten_nil, List.append_nil]
      simpa using hlast
    | cons b t' =>
      have h0 : a.length = 20 := by
        have := hfull 0 (by simp)
        simpa using this
      have hfull' : ∀ i, i + 1 < (b :: t').length → ((b :: t').getD i []).length = 20 := by
        intro i hi
        have := hfull (i + 1) (by simp at hi ⊢; omega)
        simpa [List.getD_cons_succ] using this
      have hlast' : ((b :: t').getD ((b :: t').length - 1) []).length = r := by
        have hx : (a :: b :: t').length - 1 = ((b :: t').length - 1) + 1 := by
          simp
        rw [hx, List.getD_cons_succ] at hlast
        exact hlast
      have ih' := ih r (by simp) hfull' hlast'
      simp only [List.flatten_cons, List.length_append, List.length_cons] at ih' ⊢
      omega

/-- With at least one unit of fuel and `has_next` true, the loop's first request is
always the page URL for the starting page. -/
theorem pageLoop_first (get : String → Response) (baseUrl collKey : String)
    (fuel page : Nat) (acc : List Json) (status : Nat) (r : Response) :
    ∃ rest, (pageLoop get baseUrl collKey (fuel + 1) page true acc status r).log =
      pageUrl baseUrl page :: rest := by
  simp only [pageLoop]
  split
  · split
    · exact ⟨[], rfl⟩
    · split
      · exact ⟨[], rfl⟩
      · split
        · exact ⟨[], rfl⟩
        · exact ⟨_, rfl⟩
  · next hcond => exact absurd (Or.inl trivial) hcond

/-- A string that extends `a` on the right can only equal `m` if `m` starts with
`a`. -/
theorem append_ne (a m : String) (h : a.data ≠ m.data.take a.data.length) :
    ∀ s, a ++ s ≠ m := by
  intro s heq
  apply h
  have hd : a.data ++ s.data = m.data := by
    rw [← String.data_append, heq]
  rw [← hd, List.take_left]

/-- Every `fail_json` outcome produced by the shared trailing status check carries a
message that starts with the module's fetch-failure text. -/
theorem reportLoop_failJson (fetchMsg : String) (log : List String) (r : PageLoopResult)
    (m : String) (h : (reportLoop fetchMsg log r).2 = .failJson m) :
    ∃ s, m = fetchMsg ++ s := by
  unfold reportLoop at h
  split at h
  · simp at h
  · simp at h
  · split at h
    · split at h
      · simp at h
        exact ⟨_, h.symm⟩
      · simp at h
    · simp at h

/-- Every `fail_json` outcome of the snapshot module's `core` is either the login
failure or a fetch failure built from the snapshot fetch-failure text. -/
theorem snapshot_core_failJson (snapshot_type : String) (snapshot_id : Option String)
    (get : String → Response) (fuel : Nat) (m : String)
    (h : (DigitalOceanSnapshotFacts.core snapshot_type snapshot_id get fuel).2 =
      .failJson m) :
    m = tokenAuthMsg ∨ ∃ s, m = snapshotFetchMsg ++ s := by
  by_cases h401 : (get "account").status_code = 401
  · simp [DigitalOceanSnapshotFacts.core, h401] at h
    exact Or.inl h.symm
  · by_cases hbid : snapshot_type = "by_id"
    · simp only [DigitalOceanSnapshotFacts.core] at h
      rw [if_neg h401, if_pos hbid] at h
      split at h
      · simp at h
      · exact Or.inr (reportLoop_failJson _ _ _ _ h)
    · simp only [DigitalOceanSnapshotFacts.core] at h
      rw [if_neg h401, if_neg hbid] at h
      exact Or.inr (reportLoop_failJson _ _ _ _ h)

/-- The shared trailing status check reports exactly the request log it is given,
whatever the outcome. -/
theorem reportLoop_log (fetchMsg : String) (log : List String) (r : PageLoopResult) :
    (reportLoop fetchMsg log r).1 = log := by
  unfold reportLoop
  split
  · rfl
  · rfl
  · split
    · split <;> rfl
    · rfl

/-- Every `fail_json` outcome of the image module's `core` under a non-401 pre-flight
response extends the image fetch-failure text. -/
theorem image_core_failJson_fetch (image_type : String) (get : String → Response)
    (fuel : Nat) (m : String) (ha : (get "account").status_code ≠ 401)
    (h : (DigitalOceanImageFacts.core image_type get fuel).2 = .failJson m) :
    ∃ s, m = imagesFetchMsg ++ s := by
  simp only [DigitalOceanImageFacts.core] at h
  rw [if_neg ha] at h
  exact reportLoop_failJson _ _ _ _ h

/-- Every `fail_json` outcome of the region module's `core` under a non-401 pre-flight
response extends the region fetch-failure text. -/
theorem region_core_failJson_fetch (get : String → Response)
    (fuel : Nat) (m : String) (ha : (get "account").status_code ≠ 401)
    (h : (DigitalOceanRegionFacts.core get fuel).2 = .failJson m) :
    ∃ s, m = regionsFetchMsg ++ s := by
  simp only [DigitalOceanRegionFacts.core] at h
  rw [if_neg ha] at h
  exact reportLoop_failJson _ _ _ _ h

/-- C4: whenever the pre-flight `GET account` returns 401, the image module reports
the Authentication Failure and issues no pagination request at all — the request log
is exactly the single pre-flight path. -/
theorem C4_preflight_unauthorized (image_type : String) (get : String → Response)
    (fuel : Nat) (h : (get "account").status_code = 401) :
    DigitalOceanImageFacts.core image_type get fuel =
      (["account"], .failJson tokenAuthMsg) := by
  simp [DigitalOceanImageFacts.core, h]

/-- C4 witness: against the all-401 provider, the image module aborts with the
Authentication Failure after the lone pre-flight request. -/
theorem C4_preflight_unauthorized_witness :
    (unauthorizedGet "account").status_code = 401 ∧
    DigitalOceanImageFacts.core "all" unauthorizedGet 3 =
      (["account"], .failJson tokenAuthMsg) :=
  ⟨rfl, C4_preflight_unauthorized "all" unauthorizedGet 3 rfl⟩

/-- C8: selecting `snapshot_type='by_id'` without a `snapshot_id` is rejected by the
argument validation with the Required-Parameter Failure; the request log is empty, so
not even the pre-flight check is issued, for any provider and any fuel. -/
theorem C8_required_param_rejection (get : String → Response) (fuel : Nat) :
    DigitalOceanSnapshotFacts.main "by_id" none get fuel =
      ([], .paramFail requiredParamMsg) := rfl

/-- C3 (code evaluation): the by-identifier lookup issues exactly one request after
the pre-flight; but on a success status `list.extend(response.json["snapshot"])`
iterates the snapshot object's keys, so the module exits with the list of key-name
strings instead of a one-element list containing the object; and on a non-success
status the body has no `"snapshot"` key, so the same line raises `KeyError` and the
outer handler reports a generic exception failure instead of a Fetch Failure carrying
the provider's `message`. -/
theorem C3_by_id_code_behaviour :
    DigitalOceanSnapshotFacts.main "by_id" (some "123") snapshotByIdGet 3 =
      (["account", "snapshots/123"], .exitJson (.arr [.str "id", .str "name"])) ∧
    DigitalOceanSnapshotFacts.main "by_id" (some "404") snapshotByIdGet 3 =
      (["account", "snapshots/404"], .failJsonExn "KeyError: snapshot") :=
  ⟨rfl, rfl⟩

/-- C6 counterexample: against a provider with a two-page size collection, the size
module issues the single un-paginated request `sizes` and returns only the first
page's data even though the response advertises a next link, whereas the generic
paginated fetch on the same provider issues the two page-numbered `per_page=20`
requests and gathers both pages — so the size module does not implement the
paginated fetch pattern the other three share. -/
theorem C6_sizes_not_paginated :
    DigitalOceanSizeFacts.core twoPageSizesGet =
      (["account", "sizes"], .exitJson (.arr [.num 1])) ∧
    (genericFetch "sizes?" "sizes" twoPageSizesGet 5).log =
      ["sizes?page=1&per_page=20", "sizes?page=2&per_page=20"] ∧
    (genericFetch "sizes?" "sizes" twoPageSizesGet 5).items = [.num 1, .num 2] :=
  ⟨rfl, rfl, rfl⟩

/-- C6 (amended): the image, region and collection-mode snapshot modules are each the
one generic fetch pipeline instantiated at their base URL, collection key and message
texts — so on any provider they issue identical page-numbered `per_page=20` requests
and follow next links identically — while the size module issues exactly the single
un-paginated request `sizes` after its pre-flight check. -/
theorem C6_generic_fetch_instances :
    (∀ image_type get fuel, DigitalOceanImageFacts.core image_type get fuel =
      moduleRun (DigitalOceanImageFacts.baseUrlOf image_type) "images"
        tokenAuthMsg imagesFetchMsg get fuel) ∧
    (∀ get fuel, DigitalOceanRegionFacts.core get fuel =
      moduleRun "regions?" "regions" apiTokenAuthMsg regionsFetchMsg get fuel) ∧
    (∀ t id get fuel, t ≠ "by_id" → DigitalOceanSnapshotFacts.core t id get fuel =
      moduleRun (DigitalOceanSnapshotFacts.baseUrlOf t) "snapshots"
        tokenAuthMsg snapshotFetchMsg get fuel) ∧
    (∀ get, (get "account").status_code ≠ 401 →
      (DigitalOceanSizeFacts.core get).1 = ["account", "sizes"]) := by
  refine ⟨imageFacts_core_eq_run, regionFacts_core_eq_run, snapshotFacts_core_eq_run, ?_⟩
  intro get h
  simp only [DigitalOceanSizeFacts.core]
  rw [if_neg h]
  split
  · split <;> rfl
  · split <;> rfl

/-- C6 witness: the instance equations evaluated at concrete providers, plus the size
module's un-paginated request log. -/
theorem C6_generic_fetch_instances_witness :
    DigitalOceanImageFacts.core "all" demoGet 2 =
      moduleRun (DigitalOceanImageFacts.baseUrlOf "all") "images"
        tokenAuthMsg imagesFetchMsg demoGet 2 ∧
    DigitalOceanSnapshotFacts.core "droplet" none probeGet 1 =
      moduleRun (DigitalOceanSnapshotFacts.baseUrlOf "droplet") "snapshots"
        tokenAuthMsg snapshotFetchMsg probeGet 1 ∧
    (DigitalOceanSizeFacts.core twoPageSizesGet).1 = ["account", "sizes"] :=
  ⟨C6_generic_fetch_instances.1 "all" demoGet 2,
   C6_generic_fetch_instances.2.2.1 "droplet" none probeGet 1 (by decide),
   C6_generic_fetch_instances.2.2.2 twoPageSizesGet (by decide)⟩

/-- C7 counterexample: invoking the snapshot module with `snapshot_type='by_id'` and
no identifier surfaces the Required-Parameter Failure to the caller — a failure kind
distinct from both Authentication Failure and Fetch Failure, refuting "at most two
failure kinds surface to the caller". -/
theorem C7_param_failure_reaches_caller :
    DigitalOceanSnapshotFacts.main "by_id" none probeGet 1 =
      ([], .paramFail requiredParamMsg) ∧
    (∀ m, Outcome.paramFail requiredParamMsg ≠ Outcome.failJson m) ∧
    (∀ d, Outcome.paramFail requiredParamMsg ≠ Outcome.exitJson d) :=
  ⟨rfl, fun _ h => Outcome.noConfusion h, fun _ h => Outcome.noConfusion h⟩

/-- C1: over providers serving the same `N = 20·(P−1) + r` items (`0 < r ≤ 20`)
spread across `P` pages of size 20, each page a success with a next link on pages
`1..P-1` and none on page `P`, both the image fetcher and the region fetcher return
a success whose item list is the concatenation of the pages in page-arrival order
then in-page order — exactly `N` items — and issue exactly `P` page requests after
the pre-flight account check. -/
theorem C1_full_pagination (image_type : String) (ps : List (List Json)) (P r : Nat)
    (getI getR : String → Response) (fuel : Nat)
    (hP : ps.length = P) (hP1 : 1 ≤ P)
    (hfull : ∀ i, i + 1 < P → (ps.getD i []).length = 20)
    (hlast : (ps.getD (P - 1) []).length = r) (hr1 : 0 < r) (hr2 : r ≤ 20)
    (hfuel : P ≤ fuel)
    (haI : (getI "account").status_code ≠ 401)
    (haR : (getR "account").status_code ≠ 401)
    (hpI : ∀ j, 1 ≤ j → j ≤ P →
      getI (pageUrl (DigitalOceanImageFacts.baseUrlOf image_type) j) =
        pageResponse "images" (ps.getD (j - 1) []) (decide (j < P)))
    (hpR : ∀ j, 1 ≤ j → j ≤ P →
      getR (pageUrl "regions?" j) =
        pageResponse "regions" (ps.getD (j - 1) []) (decide (j < P))) :
    DigitalOceanImageFacts.core image_type getI fuel =
      ("account" ::
        (List.range' 1 P).map (pageUrl (DigitalOceanImageFacts.baseUrlOf image_type)),
        .exitJson (.arr ps.flatten)) ∧
    DigitalOceanRegionFacts.core getR fuel =
      ("account" :: (List.range' 1 P).map (pageUrl "regions?"),
        .exitJson (.arr ps.flatten)) ∧
    ps.flatten.length = 20 * (P - 1) + r ∧
    (List.range' 1 P).length = P := by
  subst hP
  have hrunI := pageLoop_run getI (DigitalOceanImageFacts.baseUrlOf image_type)
    "images" ps (by decide) fuel 1 [] 400 (getI "account") le_rfl hP1 (by omega) hpI
  have hrunR := pageLoop_run getR "regions?" "regions" ps (by decide) fuel 1 [] 400
    (getR "account") le_rfl hP1 (by omega) hpR
  have hlen : ps.length - 1 + 1 = ps.length := by omega
  rw [hlen] at hrunI hrunR
  refine ⟨?_, ?_, sum_page_sizes ps r hP1 hfull hlast, by simp⟩
  · simp only [DigitalOceanImageFacts.core]
    rw [if_neg haI, hrunI]
    simp [reportLoop]
  · simp only [DigitalOceanRegionFacts.core]
    rw [if_neg haR, hrunR]
    simp [reportLoop]

/-- C1 witness: a one-page collection of three items (`P = 1`, `r = 3`), served to
both the image and the region module. -/
theorem C1_full_pagination_witness :
    DigitalOceanImageFacts.core "all" demoGet 1 =
      (["account", "images?page=1&per_page=20"],
        .exitJson (.arr [.num 1, .num 2, .num 3])) ∧
    DigitalOceanRegionFacts.core demoGet 1 =
      (["account", "regions?page=1&per_page=20"],
        .exitJson (.arr [.num 1, .num 2, .num 3])) ∧
    (3 : Nat) = 20 * (1 - 1) + 3 := by
  have h := C1_full_pagination "all" [[.num 1, .num 2, .num 3]] 1 3 demoGet demoGet 1
    rfl (by decide) (by intro i hi; omega) (by decide) (by decide) (by decide) le_rfl
    (by decide) (by decide)
    (by intro j h1 h2
        have hj : j = 1 := by omega
        subst hj
        rfl)
    (by intro j h1 h2
        have hj : j = 1 := by omega
        subst hj
        rfl)
  obtain ⟨h1, h2, h3, -⟩ := h
  exact ⟨h1, h2, by omega⟩

/-- C2: if pages `1..k-1` succeed with next links but page `k` returns a non-success
status whose body carries the provider's `message`, the image fetcher issues exactly
`k` page requests after the pre-flight check and the outcome is the Fetch Failure
carrying that message — the items accumulated from pages `1..k-1` are not surfaced
as a success result. -/
theorem C2_first_error_page (image_type : String) (ps : List (List Json)) (k : Nat)
    (errStatus : Nat) (errMsg : String) (get : String → Response) (fuel : Nat)
    (hk1 : 1 ≤ k) (hps : k ≤ ps.length + 1) (herr : errStatus ≠ 200)
    (ha : (get "account").status_code ≠ 401) (hfuel : k ≤ fuel)
    (hek : get (pageUrl (DigitalOceanImageFacts.baseUrlOf image_type) k) =
      ⟨errStatus, .obj [("message", .str errMsg)]⟩)
    (hp : ∀ i, 1 ≤ i → i < k →
      get (pageUrl (DigitalOceanImageFacts.baseUrlOf image_type) i) =
        pageResponse "images" (ps.getD (i - 1) []) true) :
    DigitalOceanImageFacts.core image_type get fuel =
      ("account" ::
        (List.range' 1 k).map (pageUrl (DigitalOceanImageFacts.baseUrlOf image_type)),
        .failJson (imagesFetchMsg ++ errMsg)) ∧
    (List.range' 1 k).length = k := by
  have hfail := pageLoop_fail get (DigitalOceanImageFacts.baseUrlOf image_type)
    "images" ps k ⟨errStatus, .obj [("message", .str errMsg)]⟩ (by decide) herr hek hps
    fuel 1 [] 400 (get "account") le_rfl hk1 (by omega) hp
  have hlen : k - 1 + 1 = k := by omega
  rw [hlen] at hfail
  refine ⟨?_, by simp⟩
  simp only [DigitalOceanImageFacts.core]
  rw [if_neg ha, hfail]
  simp [reportLoop, herr, pyIndex, jsonLookup, pyStr]

/-- C2 witness: the very first page answers 500 with message `boom` (`k = 1`):
exactly one page request, and the outcome is the fetch failure carrying `boom`. -/
theorem C2_first_error_page_witness :
    DigitalOceanImageFacts.core "all" failPageGet 1 =
      (["account", "images?page=1&per_page=20"],
        .failJson (imagesFetchMsg ++ "boom")) := by
  have h := C2_first_error_page "all" [] 1 500 "boom" failPageGet 1 le_rfl (by decide)
    (by decide) (by decide) le_rfl rfl
    (by intro i h1 h2; omega)
  exact h.1

/-- C5: a single-page region collection — the empty collection in particular — costs
exactly one page request, terminates with that single fetch at any fuel bound of at
least one, and yields the page's items (possibly the empty list) as a success, not a
failure. -/
theorem C5_single_page_regions (items : List Json) (get : String → Response)
    (fuel : Nat) (ha : (get "account").status_code ≠ 401) (hf : 1 ≤ fuel)
    (hp : get (pageUrl "regions?" 1) = pageResponse "regions" items false) :
    DigitalOceanRegionFacts.core get fuel =
      (["account", "regions?page=1&per_page=20"], .exitJson (.arr items)) := by
  have hrun := pageLoop_run get "regions?" "regions" [items] (by decide) fuel 1 [] 400
    (get "account") le_rfl (by simp) (by simp; omega)
    (by intro j h1 h2
        have h2' : j ≤ 1 := by simpa using h2
        have hj : j = 1 := by omega
        subst hj
        simpa using hp)
  simp only [DigitalOceanRegionFacts.core]
  rw [if_neg ha, hrun]
  simp [reportLoop]
  rfl

/-- C5 witness: the empty single-page region collection — one page request and a
successful empty result. -/
theorem C5_single_page_regions_witness :
    DigitalOceanRegionFacts.core emptyRegionsGet 1 =
      (["account", "regions?page=1&per_page=20"], .exitJson (.arr [])) :=
  C5_single_page_regions [] emptyRegionsGet 1 (by decide) le_rfl rfl

/-- C7 (amended): beyond success, the snapshot module's fetch logic surfaces exactly
the two `fail_json` failure kinds — the Authentication Failure message or a Fetch
Failure extending the snapshot fetch-failure text with the provider's message — and
in addition argument validation can surface the Required-Parameter Failure, which
occurs exactly when `by_id` is selected without an identifier (unexpected exceptions
surface separately through the catch-all handler's `failJsonExn` shape); failures
never carry result items. -/
theorem C7_failure_taxonomy (snapshot_type : String) (snapshot_id : Option String)
    (get : String → Response) (fuel : Nat) :
    (∀ m, (DigitalOceanSnapshotFacts.main snapshot_type snapshot_id get fuel).2 =
        .failJson m → m = tokenAuthMsg ∨ ∃ s, m = snapshotFetchMsg ++ s) ∧
    (∀ m, (DigitalOceanSnapshotFacts.main snapshot_type snapshot_id get fuel).2 =
        .paramFail m →
      snapshot_type = "by_id" ∧ snapshot_id = none ∧ m = requiredParamMsg) := by
  constructor
  · intro m hm
    unfold DigitalOceanSnapshotFacts.main at hm
    split at hm
    · simp at hm
    · split at hm
      · simp at hm
      · next log m1 heq =>
        simp at hm
        subst hm
        exact snapshot_core_failJson _ _ _ _ _
          (by rw [heq])
      · simp at hm
      · simp at hm
  · intro m hm
    unfold DigitalOceanSnapshotFacts.main at hm
    split at hm
    · next hcond =>
      simp at hm
      exact ⟨hcond.1, hcond.2, hm.symm⟩
    · split at hm <;> simp at hm

/-- C7 witness: the amended taxonomy instantiated at a concrete failing invocation. -/
theorem C7_failure_taxonomy_witness :
    (∀ m, (DigitalOceanSnapshotFacts.main "all" none failPageGet 3).2 =
        .failJson m → m = tokenAuthMsg ∨ ∃ s, m = snapshotFetchMsg ++ s) ∧
    (∀ m, (DigitalOceanSnapshotFacts.main "all" none failPageGet 3).2 =
        .paramFail m → "all" = "by_id" ∧ (none : Option String) = none ∧
      m = requiredParamMsg) :=
  C7_failure_taxonomy "all" none failPageGet 3

/-- C9: with `snapshot_type='all'` the snapshot base URL is `snapshots` with no `?`,
so page `n`'s request path is the malformed `snapshotspage=<n>&per_page=20` and the
first pagination request issued by the snapshot core is exactly that string — which
contains no `?` — unlike the image and region modules, whose page-1 paths carry a
`?` between the base path and `page=`. -/
theorem C9_snapshot_url_missing_separator (get : String → Response) (fuel : Nat)
    (n : Nat) (ha : (get "account").status_code ≠ 401) (hf : 1 ≤ fuel) :
    pageUrl (DigitalOceanSnapshotFacts.baseUrlOf "all") n =
      "snapshotspage=" ++ toString n ++ "&per_page=20" ∧
    (∃ rest, (DigitalOceanSnapshotFacts.core "all" none get fuel).1 =
      "account" :: ("snapshotspage=1&per_page=20" : String) :: rest) ∧
    (Char.ofNat 63 ∈ ("snapshotspage=1&per_page=20" : String).data) = False ∧
    pageUrl (DigitalOceanImageFacts.baseUrlOf "all") 1 = "images?page=1&per_page=20" ∧
    pageUrl "regions?" 1 = "regions?page=1&per_page=20" ∧
    (Char.ofNat 63 ∈ ("images?page=1&per_page=20" : String).data) = True ∧
    (Char.ofNat 63 ∈ ("regions?page=1&per_page=20" : String).data) = True := by
  refine ⟨rfl, ?_, by simp [String.data], rfl, rfl, by simp [String.data], by simp [String.data]⟩
  obtain ⟨f, rfl⟩ : ∃ f, fuel = f + 1 := ⟨fuel - 1, by omega⟩
  obtain ⟨rest, hrest⟩ := pageLoop_first get (DigitalOceanSnapshotFacts.baseUrlOf "all")
    "snapshots" f 1 [] 400 (get "account")
  refine ⟨rest, ?_⟩
  simp only [DigitalOceanSnapshotFacts.core]
  rw [if_neg ha, if_neg (by decide : ¬("all" : String) = "by_id"), reportLoop_log]
  rw [hrest]
  rfl

/-- C9 witness: the snapshot URL shape at `n = 2` over a trivial provider. -/
theorem C9_snapshot_url_missing_separator_witness :
    pageUrl (DigitalOceanSnapshotFacts.baseUrlOf "all") 2 =
      "snapshotspage=" ++ toString 2 ++ "&per_page=20" ∧
    (∃ rest, (DigitalOceanSnapshotFacts.core "all" none probeGet 1).1 =
      "account" :: ("snapshotspage=1&per_page=20" : String) :: rest) :=
  ⟨(C9_snapshot_url_missing_separator probeGet 1 2 (by decide) le_rfl).1,
   (C9_snapshot_url_missing_separator probeGet 1 2 (by decide) le_rfl).2.1⟩

/-- C10: any pre-flight account status other than exactly 401 — 403 and 500
included — does not abort: the image and region modules proceed to issue the page-1
pagination request, and neither can report the login-failure message. -/
theorem C10_only_401_aborts (image_type : String) (get : String → Response)
    (fuel : Nat) (ha : (get "account").status_code ≠ 401) (hf : 1 ≤ fuel) :
    (∃ rest, (DigitalOceanImageFacts.core image_type get fuel).1 =
      "account" :: pageUrl (DigitalOceanImageFacts.baseUrlOf image_type) 1 :: rest) ∧
    (∃ rest, (DigitalOceanRegionFacts.core get fuel).1 =
      "account" :: pageUrl "regions?" 1 :: rest) ∧
    (∀ m, (DigitalOceanImageFacts.core image_type get fuel).2 = .failJson m →
      m ≠ tokenAuthMsg) ∧
    (∀ m, (DigitalOceanRegionFacts.core get fuel).2 = .failJson m →
      m ≠ apiTokenAuthMsg) := by
  obtain ⟨f, rfl⟩ : ∃ f, fuel = f + 1 := ⟨fuel - 1, by omega⟩
  refine ⟨?_, ?_, ?_, ?_⟩
  · obtain ⟨rest, hrest⟩ := pageLoop_first get
      (DigitalOceanImageFacts.baseUrlOf image_type) "images" f 1 [] 400 (get "account")
    refine ⟨rest, ?_⟩
    simp only [DigitalOceanImageFacts.core]
    rw [if_neg ha, reportLoop_log, hrest]
  · obtain ⟨rest, hrest⟩ := pageLoop_first get "regions?" "regions" f 1 [] 400
      (get "account")
    refine ⟨rest, ?_⟩
    simp only [DigitalOceanRegionFacts.core]
    rw [if_neg ha, reportLoop_log, hrest]
  · intro m hm
    obtain ⟨s, rfl⟩ := image_core_failJson_fetch image_type get (f + 1) m ha hm
    exact append_ne imagesFetchMsg tokenAuthMsg (by decide) s
  · intro m hm
    obtain ⟨s, rfl⟩ := region_core_failJson_fetch get (f + 1) m ha hm
    exact append_ne regionsFetchMsg apiTokenAuthMsg (by decide) s

/-- C10 witness: a 403 pre-flight answer — pagination proceeds for both modules. -/
theorem C10_only_401_aborts_witness :
    (∃ rest, (DigitalOceanImageFacts.core "all" forbiddenGet 1).1 =
      "account" :: pageUrl (DigitalOceanImageFacts.baseUrlOf "all") 1 :: rest) ∧
    (∃ rest, (DigitalOceanRegionFacts.core forbiddenGet 1).1 =
      "account" :: pageUrl "regions?" 1 :: rest) :=
  ⟨(C10_only_401_aborts "all" forbiddenGet 1 (by decide) le_rfl).1,
   (C10_only_401_aborts "all" forbiddenGet 1 (by decide) le_rfl).2.1⟩
